import Mathlib

/-!
Verification of `pypots/imputation/saits/data.py` (`DatasetForSAITS`), a dataset
adapter that feeds time-series samples with artificially induced missing values
to a self-attention imputation model.

The adapter delegates to two external collaborators that are not part of the
source under verification:
* `mcar` (from the `pycorruptor` library): the missing-completely-at-random
  corruption routine;
* `BaseDataset` (from `pypots/data/base.py`): the base class managing
  in-memory vs. lazily file-backed storage and the file-handle lifecycle.
Both are modelled from the spec, with their nondeterminism (the random choice
of which observed values to hide) made explicit as a parameter.

Tensors are modelled shallowly: a dtype tag, a shape, and a flat element list
where `none` stands for a missing value (NaN) and `some v` for a present value.
The adapter never performs floating-point arithmetic: it only indexes,
corrupts (element deletion), builds 0/1 masks and re-tags dtypes, so integer
payloads are a faithful carrier.
-/

namespace SAITS

/-- Torch dtype tags relevant to this adapter (`torch.float32`, `torch.long`,
plus the default dtypes of freshly built int tensors and raw stored data). -/
inductive DType where
  | float32
  | float64
  | int64
  deriving DecidableEq, Repr

/-- A tensor: dtype tag, shape, and flattened element data.
`none` models NaN (a missing value), `some v` a present value. -/
structure Tensor where
  dtype : DType
  shape : List Nat
  data : List (Option Int)
  deriving DecidableEq, Repr

/-- `t.to d` models `tensor.to(dtype)`: re-tags the dtype, keeps shape and
element data. -/
def Tensor.to (t : Tensor) (d : DType) : Tensor :=
  { t with dtype := d }

/-- `torch.tensor(idx)` on a Python int: a zero-dimensional int64 tensor
holding the value. -/
def torchTensorScalar (n : Int) : Tensor :=
  { dtype := DType.int64, shape := [], data := [some n] }

/-- `torch.from_numpy` on a stored array slice: identity on the modelled
tensor (the numpy array and the resulting torch tensor carry the same shape,
dtype and elements). -/
def torch_from_numpy (t : Tensor) : Tensor := t

/-- Whether flat position `i` of tensor `t` holds an observed (non-missing)
value. -/
def Tensor.observedAt (t : Tensor) (i : Nat) : Bool :=
  match t.data.get? i with
  | some (some _) => true
  | _ => false

/-- Modelled from the spec: the external MCAR corruption routine
(`pycorruptor.mcar`), absent from the source tree.  Spec: it "randomly hides a
fraction of observed values independent of their value or position", returning
"the original series (possibly re-typed), the corrupted series, the
observed-value mask, and the artificial-mask", where the observed-mask is the
"indicator of which positions in the corrupted series are not missing" and the
artificial-mask the "indicator of positions that were observed in the original
data but deliberately hidden".  The random selection of positions (driven by
`rate`) is abstracted into the explicit choice function `hide`; only positions
that are actually observed in `X` can be hidden, per the spec's invariant that
"a value can only be artificially hidden if it was truly present". -/
def mcar (X : Tensor) (rate : Rat) (hide : Nat → Bool) :
    Tensor × Tensor × Tensor × Tensor :=
  let _ := rate
  let hidden : Nat → Bool := fun i => hide i && X.observedAt i
  let X_intact := X
  let corruptedData : List (Option Int) :=
    (List.range X.data.length).map
      (fun i => if hidden i then none else X.data.getD i none)
  let Xc : Tensor := { X with data := corruptedData }
  let missing_mask : Tensor :=
    { dtype := DType.float32, shape := X.shape,
      data := Xc.data.map (fun v => if v.isSome then some 1 else some 0) }
  let indicating_mask : Tensor :=
    { dtype := DType.float32, shape := X.shape,
      data := (List.range X.data.length).map
        (fun i => if hidden i then some 1 else some 0) }
  (X_intact, Xc, missing_mask, indicating_mask)

/-- Python-style errors raised by the storage collaborators and propagated
unchanged by the adapter. -/
inductive Err where
  | indexError (i : Nat)
  | keyError (k : String)
  deriving DecidableEq, Repr

/-- `xs[i]` on a Python sequence: the element, or an `IndexError` from the
underlying storage. -/
def pyIndex {α : Type} (xs : List α) (i : Nat) : Except Err α :=
  match xs.get? i with
  | some v => Except.ok v
  | none => Except.error (Err.indexError i)

/-- An h5py-like file (and its opened handle): a mapping from string keys
(`"X"`, `"y"`, ...) to lists of per-sample tensors. -/
abbrev FileStore : Type := List (String × List Tensor)

/-- `handle.keys()` membership / `handle[k]`: look a key up in the file. -/
def fileLookup (f : FileStore) (k : String) : Option (List Tensor) :=
  match f with
  | [] => none
  | (k', v) :: rest => if k' = k then some v else fileLookup rest k

/-- `handle[k]` with Python semantics: a `KeyError` when the key is absent. -/
def fileGet (f : FileStore) (k : String) : Except Err (List Tensor) :=
  match fileLookup f k with
  | some v => Except.ok v
  | none => Except.error (Err.keyError k)

/-- Modelled from the spec: the storage state managed by the absent
`BaseDataset` base class.  In-memory mode holds the `X` tensor list and the
optional label list `y` (absent when the data dict has no `"y"` key); file
mode holds the file's contents (standing for the path into the file system)
and the lazily opened, memoized handle, `None` until first use. -/
inductive Storage where
  | array (X : List Tensor) (y : Option (List Tensor))
  | file (contents : FileStore) (file_handle : Option FileStore)
  deriving DecidableEq

/-- The adapter's state: the storage (from `BaseDataset`), plus the fields the
`DatasetForSAITS` constructor stores (`return_labels`, `file_type` via
`super().__init__`, and `self.rate = rate`). -/
structure DatasetForSAITS where
  storage : Storage
  return_labels : Bool
  file_type : String
  rate : Rat
  deriving DecidableEq

/-- `DatasetForSAITS.__init__`: stores the configuration unchanged.  The
constructor performs no validation of `rate` (any value is accepted) and
never raises. -/
def DatasetForSAITS.init (storage : Storage) (return_labels : Bool)
    (file_type : String) (rate : Rat) : DatasetForSAITS :=
  { storage := storage, return_labels := return_labels,
    file_type := file_type, rate := rate }

/-- Modelled from the spec: `BaseDataset._open_file_handle`, absent from the
source tree; it opens the file at the stored path and returns a handle onto
its contents ("deferring file open ... until first access"). -/
def open_file_handle (contents : FileStore) : FileStore := contents

/-- A returned sample: the heterogeneous Python list, every element of which
is a tensor. -/
abbrev Sample : Type := List Tensor

/-- `DatasetForSAITS._fetch_data_from_array` (`data.py` lines 63-105):
index into `self.X`, corrupt via `mcar`, cast the four tensors to `float32`,
and append `self.y[idx].to(torch.long)` exactly when `self.y is not None and
self.return_labels`.  The random choice inside `mcar` is the explicit `hide`
argument. -/
def _fetch_data_from_array (rate : Rat) (return_labels : Bool)
    (X : List Tensor) (y : Option (List Tensor))
    (hide : Nat → Bool) (idx : Nat) : Except Err Sample :=
  match pyIndex X idx with
  | Except.error e => Except.error e
  | Except.ok Xi =>
    let r := mcar Xi rate hide
    let sample : Sample :=
      [torchTensorScalar (Int.ofNat idx),
       r.1.to DType.float32,
       r.2.1.to DType.float32,
       r.2.2.1.to DType.float32,
       r.2.2.2.to DType.float32]
    match y with
    | some ys =>
      if return_labels then
        match pyIndex ys idx with
        | Except.error e => Except.error e
        | Except.ok yi => Except.ok (sample ++ [yi.to DType.int64])
      else
        Except.ok sample
    | none => Except.ok sample

/-- `DatasetForSAITS._fetch_data_from_file` (`data.py` lines 107-140):
open the file handle if it is still `None` (memoized thereafter), read
`handle["X"][idx]` through `torch.from_numpy`, corrupt via `mcar`, cast to
`float32`, and append `torch.tensor(handle["y"][idx], dtype=torch.long)`
exactly when `"y" in handle.keys() and self.return_labels`.  Returns the
sample (or the propagated storage error) together with the handle as it
stands after the call. -/
def _fetch_data_from_file (rate : Rat) (return_labels : Bool)
    (contents : FileStore) (file_handle : Option FileStore)
    (hide : Nat → Bool) (idx : Nat) :
    Except Err Sample × Option FileStore :=
  let fh : FileStore :=
    match file_handle with
    | none => open_file_handle contents
    | some h => h
  let result : Except Err Sample :=
    match fileGet fh "X" with
    | Except.error e => Except.error e
    | Except.ok Xs =>
      match pyIndex Xs idx with
      | Except.error e => Except.error e
      | Except.ok Xnp =>
        let Xi := torch_from_numpy Xnp
        let r := mcar Xi rate hide
        let sample : Sample :=
          [torchTensorScalar (Int.ofNat idx),
           r.1.to DType.float32,
           r.2.1.to DType.float32,
           r.2.2.1.to DType.float32,
           r.2.2.2.to DType.float32]
        if (fileLookup fh "y").isSome && return_labels then
          match fileGet fh "y" with
          | Except.error e => Except.error e
          | Except.ok ys =>
            match pyIndex ys idx with
            | Except.error e => Except.error e
            | Except.ok yi => Except.ok (sample ++ [yi.to DType.int64])
        else
          Except.ok sample
  (result, some fh)

/-- Modelled from the spec: `BaseDataset.__getitem__`, absent from the source
tree, dispatches dynamically to `_fetch_data_from_array` in in-memory mode and
to `_fetch_data_from_file` in file-backed mode ("Dynamic dispatch between
in-memory vs. file-backed retrieval ... selected at construction").  Returns
the fetched sample (or propagated error) and the adapter state after the call.
-/
def DatasetForSAITS.getitem (self : DatasetForSAITS) (hide : Nat → Bool)
    (idx : Nat) : Except Err Sample × DatasetForSAITS :=
  match self.storage with
  | Storage.array X y =>
    (_fetch_data_from_array self.rate self.return_labels X y hide idx, self)
  | Storage.file contents fh =>
    let r := _fetch_data_from_file self.rate self.return_labels contents fh
      hide idx
    (r.1, { self with storage := Storage.file contents r.2 })

/-! ### Derived projections used to state the claims -/

/-- The handle a file-mode fetch actually reads through: the memoized handle
when already open, otherwise the freshly opened one. -/
def effHandle (contents : FileStore) (fh : Option FileStore) : FileStore :=
  match fh with
  | none => open_file_handle contents
  | some h => h

/-- The original series a fetch at `idx` retrieves before corruption:
`self.X[idx]` in in-memory mode, `torch.from_numpy(handle["X"][idx])` in
file-backed mode. -/
def retrievedX (d : DatasetForSAITS) (idx : Nat) : Except Err Tensor :=
  match d.storage with
  | Storage.array X _ => pyIndex X idx
  | Storage.file contents fh =>
    match fileGet (effHandle contents fh) "X" with
    | Except.error e => Except.error e
    | Except.ok Xs =>
      match pyIndex Xs idx with
      | Except.error e => Except.error e
      | Except.ok Xnp => Except.ok (torch_from_numpy Xnp)

/-- Whether a label source exists: `self.y is not None` in in-memory mode,
`"y" in handle.keys()` in file-backed mode. -/
def hasLabels (d : DatasetForSAITS) : Bool :=
  match d.storage with
  | Storage.array _ y => y.isSome
  | Storage.file contents fh => (fileLookup (effHandle contents fh) "y").isSome

/-- The label tensor a fetch at `idx` appends (already cast to `torch.long`).
-/
def labelAt (d : DatasetForSAITS) (idx : Nat) : Except Err Tensor :=
  match d.storage with
  | Storage.array _ (some ys) =>
    match pyIndex ys idx with
    | Except.error e => Except.error e
    | Except.ok yi => Except.ok (yi.to DType.int64)
  | Storage.array _ none => Except.error (Err.keyError "y")
  | Storage.file contents fh =>
    match fileGet (effHandle contents fh) "y" with
    | Except.error e => Except.error e
    | Except.ok ys =>
      match pyIndex ys idx with
      | Except.error e => Except.error e
      | Except.ok yi => Except.ok (yi.to DType.int64)

/-- The five fields every sample starts with, in their fixed order. -/
def assembleCore (idx : Nat) (q : Tensor × Tensor × Tensor × Tensor) :
    Sample :=
  [torchTensorScalar (Int.ofNat idx),
   q.1.to DType.float32,
   q.2.1.to DType.float32,
   q.2.2.1.to DType.float32,
   q.2.2.2.to DType.float32]

/-- Characterization of what either fetch returns: retrieve, corrupt,
assemble the fixed core, and append the label exactly when a label source
exists and labels are enabled. -/
def fetchResult (d : DatasetForSAITS) (hide : Nat → Bool) (idx : Nat) :
    Except Err Sample :=
  match retrievedX d idx with
  | Except.error e => Except.error e
  | Except.ok Xi =>
    let core := assembleCore idx (mcar Xi d.rate hide)
    if hasLabels d && d.return_labels then
      match labelAt d idx with
      | Except.error e => Except.error e
      | Except.ok yi => Except.ok (core ++ [yi])
    else
      Except.ok core

/-- The adapter state after a fetch: unchanged, except that in file mode the
handle is set to the effective handle of the call. -/
def nextState (d : DatasetForSAITS) : DatasetForSAITS :=
  match d.storage with
  | Storage.array _ _ => d
  | Storage.file contents fh =>
    { d with storage := Storage.file contents (some (effHandle contents fh)) }

lemma getitem_fst (d : DatasetForSAITS) (hide : Nat → Bool) (idx : Nat) :
    (d.getitem hide idx).1 = fetchResult d hide idx := by
  obtain ⟨st, rl, ft, rate⟩ := d
  cases st with
  | array X y =>
    simp only [DatasetForSAITS.getitem, fetchResult, retrievedX, hasLabels,
      labelAt, _fetch_data_from_array, assembleCore]
    cases hx : pyIndex X idx with
    | error e => rfl
    | ok Xi =>
      cases y with
      | none => simp
      | some ys =>
        cases rl with
        | false => simp
        | true =>
          cases hy : pyIndex ys idx with
          | error e => simp [hy]
          | ok yi => simp [hy]
  | file contents fh =>
    simp only [DatasetForSAITS.getitem, fetchResult, retrievedX, hasLabels,
      labelAt, _fetch_data_from_file, assembleCore, torch_from_numpy]
    have heff : (match fh with
        | none => open_file_handle contents
        | some h => h) = effHandle contents fh := rfl
    rw [heff]
    cases hxs : fileGet (effHandle contents fh) "X" with
    | error e => rfl
    | ok Xs =>
      cases hx : pyIndex Xs idx with
      | error e => simp [hx]
      | ok Xi =>
        cases hys : fileLookup (effHandle contents fh) "y" with
        | none => simp [hx, hys]
        | some ys =>
          cases rl with
          | false => simp [hx, hys]
          | true =>
            cases hy : pyIndex ys idx with
            | error e => simp [hx, hys, fileGet, hy]
            | ok yi => simp [hx, hys, fileGet, hy]

lemma getitem_snd (d : DatasetForSAITS) (hide : Nat → Bool) (idx : Nat) :
    (d.getitem hide idx).2 = nextState d := by
  obtain ⟨st, rl, ft, rate⟩ := d
  cases st with
  | array X y => rfl
  | file contents fh => cases fh <;> rfl

/-! ### Facts about the modelled `mcar` outputs -/

lemma mcar_fst (X : Tensor) (rate : Rat) (hide : Nat → Bool) :
    (mcar X rate hide).1 = X := rfl

lemma mcar_Xc_shape (X : Tensor) (rate : Rat) (hide : Nat → Bool) :
    (mcar X rate hide).2.1.shape = X.shape := rfl

lemma mcar_Xc_dtype (X : Tensor) (rate : Rat) (hide : Nat → Bool) :
    (mcar X rate hide).2.1.dtype = X.dtype := rfl

lemma mcar_mm_shape (X : Tensor) (rate : Rat) (hide : Nat → Bool) :
    (mcar X rate hide).2.2.1.shape = X.shape := rfl

lemma mcar_im_shape (X : Tensor) (rate : Rat) (hide : Nat → Bool) :
    (mcar X rate hide).2.2.2.shape = X.shape := rfl

lemma mcar_Xc_get (X : Tensor) (rate : Rat) (hide : Nat → Bool) (i : Nat) :
    (mcar X rate hide).2.1.data.get? i =
      if i < X.data.length then
        some (if hide i && X.observedAt i then none else X.data.getD i none)
      else none := by
  by_cases hi : i < X.data.length
  · simp [mcar, List.get?_map, List.get?_range, hi]
  · simp only [mcar, if_neg hi]
    rw [List.get?_eq_none]
    simpa using Nat.le_of_not_lt hi

lemma mcar_mm_get (X : Tensor) (rate : Rat) (hide : Nat → Bool) (i : Nat) :
    (mcar X rate hide).2.2.1.data.get? i =
      ((mcar X rate hide).2.1.data.get? i).map
        (fun v => if v.isSome then some 1 else some 0) := by
  simp [mcar, List.get?_map]

lemma mcar_im_get (X : Tensor) (rate : Rat) (hide : Nat → Bool) (i : Nat) :
    (mcar X rate hide).2.2.2.data.get? i =
      if i < X.data.length then
        some (if hide i && X.observedAt i then some 1 else some 0)
      else none := by
  by_cases hi : i < X.data.length
  · simp [mcar, List.get?_map, List.get?_range, hi]
  · simp only [mcar, if_neg hi]
    rw [List.get?_eq_none]
    simpa using Nat.le_of_not_lt hi

lemma observedAt_to (t : Tensor) (d : DType) (i : Nat) :
    (t.to d).observedAt i = t.observedAt i := rfl

lemma data_to (t : Tensor) (d : DType) : (t.to d).data = t.data := rfl

lemma shape_to (t : Tensor) (d : DType) : (t.to d).shape = t.shape := rfl

/-- Inversion lemma: a successful fetch is exactly an assembled core with a
label appended when (and only when) labels exist and are enabled. -/
lemma fetch_ok_inv (d : DatasetForSAITS) (hide : Nat → Bool) (idx : Nat)
    (s : Sample) (h : (d.getitem hide idx).1 = Except.ok s) :
    ∃ Xi, retrievedX d idx = Except.ok Xi ∧
      (((hasLabels d && d.return_labels) = true ∧
        ∃ yi, labelAt d idx = Except.ok yi ∧
          s = assembleCore idx (mcar Xi d.rate hide) ++ [yi]) ∨
       ((hasLabels d && d.return_labels) = false ∧
        s = assembleCore idx (mcar Xi d.rate hide))) := by
  rw [getitem_fst] at h
  unfold fetchResult at h
  cases hx : retrievedX d idx with
  | error e => rw [hx] at h; exact absurd h (by simp)
  | ok Xi =>
    rw [hx] at h
    refine ⟨Xi, rfl, ?_⟩
    cases hc : (hasLabels d && d.return_labels) with
    | false =>
      rw [hc] at h
      simp only [Bool.false_eq_true, if_false] at h
      exact Or.inr ⟨rfl, (Except.ok.injEq _ _ ▸ h).symm⟩
    | true =>
      rw [hc] at h
      simp only [if_true] at h
      cases hy : labelAt d idx with
      | error e => rw [hy] at h; exact absurd h (by simp)
      | ok yi =>
        rw [hy] at h
        simp only [Except.ok.injEq] at h
        exact Or.inl ⟨rfl, yi, rfl, h.symm⟩

lemma assembleCore_append_get0 (idx : Nat) (q : Tensor × Tensor × Tensor × Tensor)
    (rest : Sample) :
    (assembleCore idx q ++ rest).get? 0 = some (torchTensorScalar (Int.ofNat idx)) := rfl

lemma assembleCore_append_get1 (idx : Nat) (q : Tensor × Tensor × Tensor × Tensor)
    (rest : Sample) :
    (assembleCore idx q ++ rest).get? 1 = some (q.1.to DType.float32) := rfl

lemma assembleCore_append_get2 (idx : Nat) (q : Tensor × Tensor × Tensor × Tensor)
    (rest : Sample) :
    (assembleCore idx q ++ rest).get? 2 = some (q.2.1.to DType.float32) := rfl

lemma assembleCore_append_get3 (idx : Nat) (q : Tensor × Tensor × Tensor × Tensor)
    (rest : Sample) :
    (assembleCore idx q ++ rest).get? 3 = some (q.2.2.1.to DType.float32) := rfl

lemma assembleCore_append_get4 (idx : Nat) (q : Tensor × Tensor × Tensor × Tensor)
    (rest : Sample) :
    (assembleCore idx q ++ rest).get? 4 = some (q.2.2.2.to DType.float32) := rfl

lemma assembleCore_get5 (idx : Nat) (q : Tensor × Tensor × Tensor × Tensor)
    (yi : Tensor) :
    (assembleCore idx q ++ [yi]).get? 5 = some yi := rfl

lemma assembleCore_plain_get5 (idx : Nat) (q : Tensor × Tensor × Tensor × Tensor) :
    (assembleCore idx q).get? 5 = none := rfl

/-! ### Claim theorems -/

/-- C1: for every valid index, in both in-memory and file-backed modes, a
returned sample has its fields in the fixed order (index, original series,
corrupted series, observed-value mask, artificial-mask), followed by the label
as the sixth field exactly when a label source exists and labels are enabled.
-/
theorem fetch_fixed_field_order (d : DatasetForSAITS) (hide : Nat → Bool)
    (idx : Nat) (s : Sample) (h : (d.getitem hide idx).1 = Except.ok s) :
    ∃ Xi rest,
      retrievedX d idx = Except.ok Xi ∧
      s = [torchTensorScalar (Int.ofNat idx),
           (mcar Xi d.rate hide).1.to DType.float32,
           (mcar Xi d.rate hide).2.1.to DType.float32,
           (mcar Xi d.rate hide).2.2.1.to DType.float32,
           (mcar Xi d.rate hide).2.2.2.to DType.float32] ++ rest ∧
      ((hasLabels d = true ∧ d.return_labels = true) →
        ∃ lab, labelAt d idx = Except.ok lab ∧ rest = [lab]) ∧
      (¬(hasLabels d = true ∧ d.return_labels = true) → rest = []) := by
  obtain ⟨Xi, hXi, hcase⟩ := fetch_ok_inv d hide idx s h
  cases hcase with
  | inl hl =>
    obtain ⟨hc, yi, hy, hs⟩ := hl
    refine ⟨Xi, [yi], hXi, hs, fun _ => ⟨yi, hy, rfl⟩, fun hn => ?_⟩
    exact absurd (Bool.and_eq_true_iff.mp hc) hn
  | inr hr =>
    obtain ⟨hc, hs⟩ := hr
    refine ⟨Xi, [], hXi, by simpa using hs, fun hyes => ?_, fun _ => rfl⟩
    rw [hyes.1, hyes.2] at hc
    exact absurd hc (by simp)

/-- C2: a returned sample has exactly 5 elements when `return_labels` is
false or no label source exists, and exactly 6 when labels exist and
`return_labels` is true. -/
theorem fetch_sample_length (d : DatasetForSAITS) (hide : Nat → Bool)
    (idx : Nat) (s : Sample) (h : (d.getitem hide idx).1 = Except.ok s) :
    s.length = if hasLabels d && d.return_labels then 6 else 5 := by
  obtain ⟨Xi, hXi, hcase⟩ := fetch_ok_inv d hide idx s h
  cases hcase with
  | inl hl =>
    obtain ⟨hc, yi, hy, hs⟩ := hl
    rw [hc, hs]
    rfl
  | inr hr =>
    obtain ⟨hc, hs⟩ := hr
    rw [hc, hs]
    rfl

lemma fetch_ok_core (d : DatasetForSAITS) (hide : Nat → Bool) (idx : Nat)
    (s : Sample) (h : (d.getitem hide idx).1 = Except.ok s) :
    ∃ Xi rest, retrievedX d idx = Except.ok Xi ∧
      s = assembleCore idx (mcar Xi d.rate hide) ++ rest := by
  obtain ⟨Xi, hXi, hcase⟩ := fetch_ok_inv d hide idx s h
  rcases hcase with ⟨_, yi, _, hs⟩ | ⟨_, hs⟩
  · exact ⟨Xi, [yi], hXi, hs⟩
  · exact ⟨Xi, [], hXi, by simpa using hs⟩

lemma labelAt_dtype (d : DatasetForSAITS) (idx : Nat) (lab : Tensor)
    (h : labelAt d idx = Except.ok lab) : lab.dtype = DType.int64 := by
  unfold labelAt at h
  split at h
  · split at h
    · exact absurd h (by simp)
    · injection h with h'
      rw [← h']
      rfl
  · exact absurd h (by simp)
  · split at h
    · exact absurd h (by simp)
    · split at h
      · exact absurd h (by simp)
      · injection h with h'
        rw [← h']
        rfl

/-- C3: in every returned sample, every position set to 1 in the
artificial-mask was observed (non-missing) in the original series, the
artificial-mask and the observed-value mask are never both 1 at a position,
and the two masks have the same shape. -/
theorem masks_subset_and_disjoint (d : DatasetForSAITS) (hide : Nat → Bool)
    (idx : Nat) (s : Sample) (h : (d.getitem hide idx).1 = Except.ok s)
    (orig mm im : Tensor)
    (h1 : s.get? 1 = some orig) (h3 : s.get? 3 = some mm)
    (h4 : s.get? 4 = some im) :
    im.shape = mm.shape ∧
    ∀ i, im.data.get? i = some (some 1) →
      orig.observedAt i = true ∧ mm.data.get? i ≠ some (some 1) := by
  obtain ⟨Xi, rest, hXi, hs⟩ := fetch_ok_core d hide idx s h
  subst hs
  rw [assembleCore_append_get1] at h1
  rw [assembleCore_append_get3] at h3
  rw [assembleCore_append_get4] at h4
  obtain rfl : (mcar Xi d.rate hide).1.to DType.float32 = orig := Option.some.inj h1
  obtain rfl : (mcar Xi d.rate hide).2.2.1.to DType.float32 = mm := Option.some.inj h3
  obtain rfl : (mcar Xi d.rate hide).2.2.2.to DType.float32 = im := Option.some.inj h4
  constructor
  · rw [shape_to, shape_to, mcar_im_shape, mcar_mm_shape]
  · intro i him
    rw [data_to, mcar_im_get] at him
    by_cases hi : i < Xi.data.length
    · rw [if_pos hi] at him
      have hcond : (hide i && Xi.observedAt i) = true := by
        by_contra hcnd
        rw [Bool.not_eq_true] at hcnd
        rw [hcnd] at him
        simp only [if_false, Bool.false_eq_true] at him
        exact absurd (Option.some.inj (Option.some.inj him)) (by decide)
      constructor
      · rw [observedAt_to, mcar_fst]
        exact (Bool.and_eq_true_iff.mp hcond).2
      · rw [data_to, mcar_mm_get, mcar_Xc_get, if_pos hi, if_pos hcond]
        simp
    · rw [if_neg hi] at him
      exact absurd him (by simp)

/-- C6: in every returned sample (either mode), the original series, the
corrupted series and the two masks carry the float32 dtype, and the label,
when present as the sixth field, carries the int64 (long) dtype. -/
theorem sample_dtypes (d : DatasetForSAITS) (hide : Nat → Bool)
    (idx : Nat) (s : Sample) (h : (d.getitem hide idx).1 = Except.ok s) :
    (∃ t1, s.get? 1 = some t1 ∧ t1.dtype = DType.float32) ∧
    (∃ t2, s.get? 2 = some t2 ∧ t2.dtype = DType.float32) ∧
    (∃ t3, s.get? 3 = some t3 ∧ t3.dtype = DType.float32) ∧
    (∃ t4, s.get? 4 = some t4 ∧ t4.dtype = DType.float32) ∧
    (∀ lab, s.get? 5 = some lab → lab.dtype = DType.int64) := by
  obtain ⟨Xi, hXi, hcase⟩ := fetch_ok_inv d hide idx s h
  rcases hcase with ⟨_, yi, hy, hs⟩ | ⟨_, hs⟩
  · subst hs
    refine ⟨⟨_, assembleCore_append_get1 .., rfl⟩,
      ⟨_, assembleCore_append_get2 .., rfl⟩,
      ⟨_, assembleCore_append_get3 .., rfl⟩,
      ⟨_, assembleCore_append_get4 .., rfl⟩, ?_⟩
    intro lab hlab
    rw [assembleCore_get5] at hlab
    obtain rfl : yi = lab := Option.some.inj hlab
    exact labelAt_dtype d idx yi hy
  · subst hs
    have hs' : assembleCore idx (mcar Xi d.rate hide) =
        assembleCore idx (mcar Xi d.rate hide) ++ [] := by simp
    refine ⟨⟨_, by rw [hs']; exact assembleCore_append_get1 .., rfl⟩,
      ⟨_, by rw [hs']; exact assembleCore_append_get2 .., rfl⟩,
      ⟨_, by rw [hs']; exact assembleCore_append_get3 .., rfl⟩,
      ⟨_, by rw [hs']; exact assembleCore_append_get4 .., rfl⟩, ?_⟩
    intro lab hlab
    rw [assembleCore_plain_get5] at hlab
    exact absurd hlab (by simp)

/-- C9: in every returned sample, the original-series and corrupted-series
elements have the same shape. -/
theorem original_corrupted_same_shape (d : DatasetForSAITS)
    (hide : Nat → Bool) (idx : Nat) (s : Sample)
    (h : (d.getitem hide idx).1 = Except.ok s) (orig xc : Tensor)
    (h1 : s.get? 1 = some orig) (h2 : s.get? 2 = some xc) :
    orig.shape = xc.shape := by
  obtain ⟨Xi, rest, hXi, hs⟩ := fetch_ok_core d hide idx s h
  subst hs
  rw [assembleCore_append_get1] at h1
  rw [assembleCore_append_get2] at h2
  obtain rfl : (mcar Xi d.rate hide).1.to DType.float32 = orig := Option.some.inj h1
  obtain rfl : (mcar Xi d.rate hide).2.1.to DType.float32 = xc := Option.some.inj h2
  rw [shape_to, shape_to, mcar_fst, mcar_Xc_shape]

/-- C10: in every returned sample (either mode), the first element is a
zero-dimensional int64 tensor whose value is the requested index. -/
theorem first_element_index_tensor (d : DatasetForSAITS)
    (hide : Nat → Bool) (idx : Nat) (s : Sample)
    (h : (d.getitem hide idx).1 = Except.ok s) :
    s.get? 0 = some (torchTensorScalar (Int.ofNat idx)) ∧
    (torchTensorScalar (Int.ofNat idx)).shape = [] ∧
    (torchTensorScalar (Int.ofNat idx)).dtype = DType.int64 ∧
    (torchTensorScalar (Int.ofNat idx)).data = [some (Int.ofNat idx)] := by
  obtain ⟨Xi, rest, hXi, hs⟩ := fetch_ok_core d hide idx s h
  subst hs
  exact ⟨assembleCore_append_get0 .., rfl, rfl, rfl⟩

/-- A file holding the same data as an in-memory dict with series `X` and
optional labels `y`: an `"X"` key, and a `"y"` key exactly when labels exist.
-/
def storeOf (X : List Tensor) (y : Option (List Tensor)) : FileStore :=
  match y with
  | some ys => [("X", X), ("y", ys)]
  | none => [("X", X)]

lemma fileLookup_storeOf_X (X : List Tensor) (y : Option (List Tensor)) :
    fileLookup (storeOf X y) "X" = some X := by
  cases y <;> simp [storeOf, fileLookup]

lemma fileLookup_storeOf_y (X : List Tensor) (y : Option (List Tensor)) :
    fileLookup (storeOf X y) "y" = y := by
  cases y <;> simp [storeOf, fileLookup]

/-- The second field of a fetch outcome (the original series), with errors
passed through. -/
lemma original_proj (d : DatasetForSAITS) (hide : Nat → Bool) (idx : Nat) :
    Except.map (fun s : Sample => s.get? 1) (d.getitem hide idx).1 =
      match retrievedX d idx with
      | Except.error e => Except.error e
      | Except.ok Xi =>
        if hasLabels d && d.return_labels then
          match labelAt d idx with
          | Except.error e => Except.error e
          | Except.ok _ => Except.ok (some (Xi.to DType.float32))
        else
          Except.ok (some (Xi.to DType.float32)) := by
  rw [getitem_fst]
  unfold fetchResult
  cases hx : retrievedX d idx with
  | error e => rfl
  | ok Xi =>
    cases hc : (hasLabels d && d.return_labels) with
    | false => simp [Except.map, assembleCore, mcar_fst]
    | true =>
      cases hy : labelAt d idx with
      | error e => simp [hy, Except.map]
      | ok yi => simp [hy, Except.map, assembleCore, mcar_fst]

lemma retrievedX_nextState (d : DatasetForSAITS) (idx : Nat) :
    retrievedX (nextState d) idx = retrievedX d idx := by
  obtain ⟨st, rl, ft, rate⟩ := d
  cases st with
  | array X y => rfl
  | file c fh => cases fh <;> rfl

lemma hasLabels_nextState (d : DatasetForSAITS) :
    hasLabels (nextState d) = hasLabels d := by
  obtain ⟨st, rl, ft, rate⟩ := d
  cases st with
  | array X y => rfl
  | file c fh => cases fh <;> rfl

lemma labelAt_nextState (d : DatasetForSAITS) (idx : Nat) :
    labelAt (nextState d) idx = labelAt d idx := by
  obtain ⟨st, rl, ft, rate⟩ := d
  cases st with
  | array X y => rfl
  | file c fh => cases fh <;> rfl

lemma return_labels_nextState (d : DatasetForSAITS) :
    (nextState d).return_labels = d.return_labels := by
  obtain ⟨st, rl, ft, rate⟩ := d
  cases st with
  | array X y => rfl
  | file c fh => cases fh <;> rfl

/-- C4: constructing the adapter in in-memory mode over data `(X, y)` and in
file-backed mode over a file holding the same data, then fetching the same
index, yields an identical original-series (second) element — errors
included, and independently of the corruption choices made in each mode. -/
theorem array_file_same_original (X : List Tensor) (y : Option (List Tensor))
    (rl : Bool) (ft : String) (rate : Rat) (hide1 hide2 : Nat → Bool)
    (idx : Nat) :
    Except.map (fun s : Sample => s.get? 1)
        ((DatasetForSAITS.init (Storage.array X y) rl ft rate).getitem
          hide1 idx).1 =
      Except.map (fun s : Sample => s.get? 1)
        ((DatasetForSAITS.init (Storage.file (storeOf X y) none) rl ft
          rate).getitem hide2 idx).1 := by
  rw [original_proj, original_proj]
  have hret : retrievedX
      (DatasetForSAITS.init (Storage.file (storeOf X y) none) rl ft rate) idx
      = retrievedX (DatasetForSAITS.init (Storage.array X y) rl ft rate)
        idx := by
    show (match fileGet (effHandle (storeOf X y) none) "X" with
      | Except.error e => Except.error e
      | Except.ok Xs =>
        match pyIndex Xs idx with
        | Except.error e => Except.error e
        | Except.ok Xnp => Except.ok (torch_from_numpy Xnp)) = pyIndex X idx
    have hfg : fileGet (effHandle (storeOf X y) none) "X" = Except.ok X := by
      unfold fileGet
      rw [show effHandle (storeOf X y) none = storeOf X y from rfl,
        fileLookup_storeOf_X]
    rw [hfg]
    cases hpx : pyIndex X idx with
    | error e => simp [hpx]
    | ok t => simp [hpx, torch_from_numpy]
  have hlab : hasLabels
      (DatasetForSAITS.init (Storage.file (storeOf X y) none) rl ft rate)
      = hasLabels (DatasetForSAITS.init (Storage.array X y) rl ft rate) := by
    show (fileLookup (effHandle (storeOf X y) none) "y").isSome = y.isSome
    rw [show effHandle (storeOf X y) none = storeOf X y from rfl,
      fileLookup_storeOf_y]
  have hlat : labelAt
      (DatasetForSAITS.init (Storage.file (storeOf X y) none) rl ft rate) idx
      = labelAt (DatasetForSAITS.init (Storage.array X y) rl ft rate) idx := by
    cases y with
    | none =>
      show (match fileGet (effHandle (storeOf X none) none) "y" with
        | Except.error e => Except.error e
        | Except.ok ys =>
          match pyIndex ys idx with
          | Except.error e => Except.error e
          | Except.ok yi => Except.ok (yi.to DType.int64)) =
        Except.error (Err.keyError "y")
      have hfg : fileGet (effHandle (storeOf X none) none) "y" =
          Except.error (Err.keyError "y") := by
        unfold fileGet
        rw [show effHandle (storeOf X none) none = storeOf X none from rfl,
          fileLookup_storeOf_y]
      rw [hfg]
    | some ys =>
      show (match fileGet (effHandle (storeOf X (some ys)) none) "y" with
        | Except.error e => Except.error e
        | Except.ok ys' =>
          match pyIndex ys' idx with
          | Except.error e => Except.error e
          | Except.ok yi => Except.ok (yi.to DType.int64)) =
        (match pyIndex ys idx with
        | Except.error e => Except.error e
        | Except.ok yi => Except.ok (yi.to DType.int64))
      have hfg : fileGet (effHandle (storeOf X (some ys)) none) "y" =
          Except.ok ys := by
        unfold fileGet
        rw [show effHandle (storeOf X (some ys)) none = storeOf X (some ys)
          from rfl, fileLookup_storeOf_y]
      rw [hfg]
  rw [hret, hlab, hlat]
  rfl

/-- C5: two successive fetches of the same index on the same adapter project
to identical original-series (second) elements whatever the corruption
choices, and there is an adapter on which the corrupted-series (third)
elements of the two fetches differ while the original-series elements agree.
-/
theorem refetch_same_original (d : DatasetForSAITS) (hide1 hide2 : Nat → Bool)
    (idx : Nat) :
    (Except.map (fun s : Sample => s.get? 1) (d.getitem hide1 idx).1 =
      Except.map (fun s : Sample => s.get? 1)
        (((d.getitem hide1 idx).2).getitem hide2 idx).1) ∧
    ∃ (d' : DatasetForSAITS) (h1 h2 : Nat → Bool) (i : Nat) (s1 s2 : Sample),
      (d'.getitem h1 i).1 = Except.ok s1 ∧
      (((d'.getitem h1 i).2).getitem h2 i).1 = Except.ok s2 ∧
      s1.get? 1 = s2.get? 1 ∧ s1.get? 2 ≠ s2.get? 2 := by
  constructor
  · rw [getitem_snd, original_proj, original_proj, retrievedX_nextState,
      hasLabels_nextState, labelAt_nextState, return_labels_nextState]
  · refine ⟨DatasetForSAITS.init
      (Storage.array [⟨DType.float64, [1, 1], [some 7]⟩] none) false "h5py"
      (1 / 2),
      fun _ => false, fun _ => true, 0,
      [⟨DType.int64, [], [some 0]⟩,
       ⟨DType.float32, [1, 1], [some 7]⟩,
       ⟨DType.float32, [1, 1], [some 7]⟩,
       ⟨DType.float32, [1, 1], [some 1]⟩,
       ⟨DType.float32, [1, 1], [some 0]⟩],
      [⟨DType.int64, [], [some 0]⟩,
       ⟨DType.float32, [1, 1], [some 7]⟩,
       ⟨DType.float32, [1, 1], [none]⟩,
       ⟨DType.float32, [1, 1], [some 0]⟩,
       ⟨DType.float32, [1, 1], [some 1]⟩],
      rfl, rfl, rfl, by decide⟩

/-- C7: a fetch leaves the adapter unchanged in in-memory mode; in
file-backed mode the first fetch (handle still unset) assigns the handle the
freshly opened one and changes nothing else, and any fetch with the handle
already set leaves the whole adapter unchanged. -/
theorem fetch_frame_effect :
    (∀ (X : List Tensor) (y : Option (List Tensor)) (rl : Bool) (ft : String)
        (rate : Rat) (hide : Nat → Bool) (idx : Nat),
      ((DatasetForSAITS.init (Storage.array X y) rl ft rate).getitem hide
        idx).2 = DatasetForSAITS.init (Storage.array X y) rl ft rate) ∧
    (∀ (c : FileStore) (rl : Bool) (ft : String) (rate : Rat)
        (hide : Nat → Bool) (idx : Nat),
      ((DatasetForSAITS.init (Storage.file c none) rl ft rate).getitem hide
        idx).2 = DatasetForSAITS.init
          (Storage.file c (some (open_file_handle c))) rl ft rate) ∧
    (∀ (c h : FileStore) (rl : Bool) (ft : String) (rate : Rat)
        (hide : Nat → Bool) (idx : Nat),
      ((DatasetForSAITS.init (Storage.file c (some h)) rl ft rate).getitem
        hide idx).2 = DatasetForSAITS.init (Storage.file c (some h)) rl ft
          rate) :=
  ⟨fun _ _ _ _ _ _ _ => rfl, fun _ _ _ _ _ _ => rfl,
   fun _ _ _ _ _ _ _ => rfl⟩

/-- C8: construction stores any `rate` (and the other arguments) without
validation and cannot fail; an out-of-bounds index yields exactly the
`IndexError` of the underlying in-memory storage, and a file without an
`"X"` key yields exactly the storage's `KeyError`, both propagated
unchanged. -/
theorem adapter_introduces_no_failures :
    (∀ (st : Storage) (rl : Bool) (ft : String) (rate : Rat),
      (DatasetForSAITS.init st rl ft rate).rate = rate ∧
      (DatasetForSAITS.init st rl ft rate).storage = st ∧
      (DatasetForSAITS.init st rl ft rate).return_labels = rl ∧
      (DatasetForSAITS.init st rl ft rate).file_type = ft) ∧
    (∀ (X : List Tensor) (y : Option (List Tensor)) (rl : Bool) (ft : String)
        (rate : Rat) (hide : Nat → Bool) (idx : Nat),
      X.length ≤ idx →
      pyIndex X idx = Except.error (Err.indexError idx) ∧
      ((DatasetForSAITS.init (Storage.array X y) rl ft rate).getitem hide
        idx).1 = Except.error (Err.indexError idx)) ∧
    (∀ (c : FileStore) (fh : Option FileStore) (rl : Bool) (ft : String)
        (rate : Rat) (hide : Nat → Bool) (idx : Nat),
      fileLookup (effHandle c fh) "X" = none →
      ((DatasetForSAITS.init (Storage.file c fh) rl ft rate).getitem hide
        idx).1 = Except.error (Err.keyError "X")) := by
  refine ⟨fun _ _ _ _ => ⟨rfl, rfl, rfl, rfl⟩, ?_, ?_⟩
  · intro X y rl ft rate hide idx hlen
    have hpy : pyIndex X idx = Except.error (Err.indexError idx) := by
      unfold pyIndex
      rw [List.get?_eq_none.mpr hlen]
    refine ⟨hpy, ?_⟩
    rw [getitem_fst]
    unfold fetchResult
    have hret : retrievedX
        (DatasetForSAITS.init (Storage.array X y) rl ft rate) idx =
        Except.error (Err.indexError idx) := hpy
    rw [hret]
  · intro c fh rl ft rate hide idx hkey
    rw [getitem_fst]
    unfold fetchResult
    have hret : retrievedX
        (DatasetForSAITS.init (Storage.file c fh) rl ft rate) idx =
        Except.error (Err.keyError "X") := by
      show (match fileGet (effHandle c fh) "X" with
        | Except.error e => Except.error e
        | Except.ok Xs =>
          match pyIndex Xs idx with
          | Except.error e => Except.error e
          | Except.ok Xnp => Except.ok (torch_from_numpy Xnp)) =
        Except.error (Err.keyError "X")
      have hfg : fileGet (effHandle c fh) "X" =
          Except.error (Err.keyError "X") := by
        unfold fileGet
        rw [hkey]
      rw [hfg]
    rw [hret]

/-! ### A concrete dataset used to witness the hypothesis-bearing theorems:
one series of shape [2, 1] with one observed and one missing value, one
label, labels enabled, and a corruption choice that hides everything it can.
-/

def demoT : Tensor := ⟨DType.float64, [2, 1], [some 3, none]⟩

def demoL : Tensor := ⟨DType.float64, [], [some 1]⟩

def demoDataset : DatasetForSAITS :=
  DatasetForSAITS.init (Storage.array [demoT] (some [demoL])) true "h5py"
    (1 / 5)

def demoHide : Nat → Bool := fun _ => true

def demoSample : Sample :=
  [⟨DType.int64, [], [some 0]⟩,
   ⟨DType.float32, [2, 1], [some 3, none]⟩,
   ⟨DType.float32, [2, 1], [none, none]⟩,
   ⟨DType.float32, [2, 1], [some 0, some 0]⟩,
   ⟨DType.float32, [2, 1], [some 1, some 0]⟩,
   ⟨DType.int64, [], [some 1]⟩]

theorem fetch_fixed_field_order_witness :
    (demoDataset.getitem demoHide 0).1 = Except.ok demoSample ∧
    ∃ Xi rest,
      retrievedX demoDataset 0 = Except.ok Xi ∧
      demoSample = [torchTensorScalar (Int.ofNat 0),
           (mcar Xi demoDataset.rate demoHide).1.to DType.float32,
           (mcar Xi demoDataset.rate demoHide).2.1.to DType.float32,
           (mcar Xi demoDataset.rate demoHide).2.2.1.to DType.float32,
           (mcar Xi demoDataset.rate demoHide).2.2.2.to DType.float32]
          ++ rest ∧
      ((hasLabels demoDataset = true ∧ demoDataset.return_labels = true) →
        ∃ lab, labelAt demoDataset 0 = Except.ok lab ∧ rest = [lab]) ∧
      (¬(hasLabels demoDataset = true ∧ demoDataset.return_labels = true) →
        rest = []) :=
  ⟨rfl, fetch_fixed_field_order demoDataset demoHide 0 demoSample rfl⟩

theorem fetch_sample_length_witness :
    (demoDataset.getitem demoHide 0).1 = Except.ok demoSample ∧
    demoSample.length =
      if hasLabels demoDataset && demoDataset.return_labels then 6 else 5 :=
  ⟨rfl, fetch_sample_length demoDataset demoHide 0 demoSample rfl⟩

theorem masks_subset_and_disjoint_witness :
    (demoDataset.getitem demoHide 0).1 = Except.ok demoSample ∧
    demoSample.get? 1 = some ⟨DType.float32, [2, 1], [some 3, none]⟩ ∧
    demoSample.get? 3 = some ⟨DType.float32, [2, 1], [some 0, some 0]⟩ ∧
    demoSample.get? 4 = some ⟨DType.float32, [2, 1], [some 1, some 0]⟩ ∧
    ((⟨DType.float32, [2, 1], [some 1, some 0]⟩ : Tensor).shape =
      (⟨DType.float32, [2, 1], [some 0, some 0]⟩ : Tensor).shape ∧
     ∀ i, (⟨DType.float32, [2, 1], [some 1, some 0]⟩ : Tensor).data.get? i =
        some (some 1) →
      (⟨DType.float32, [2, 1], [some 3, none]⟩ : Tensor).observedAt i = true ∧
      (⟨DType.float32, [2, 1], [some 0, some 0]⟩ : Tensor).data.get? i ≠
        some (some 1)) :=
  ⟨rfl, rfl, rfl, rfl,
   masks_subset_and_disjoint demoDataset demoHide 0 demoSample rfl
     ⟨DType.float32, [2, 1], [some 3, none]⟩
     ⟨DType.float32, [2, 1], [some 0, some 0]⟩
     ⟨DType.float32, [2, 1], [some 1, some 0]⟩ rfl rfl rfl⟩

theorem sample_dtypes_witness :
    (demoDataset.getitem demoHide 0).1 = Except.ok demoSample ∧
    ((∃ t1, demoSample.get? 1 = some t1 ∧ t1.dtype = DType.float32) ∧
     (∃ t2, demoSample.get? 2 = some t2 ∧ t2.dtype = DType.float32) ∧
     (∃ t3, demoSample.get? 3 = some t3 ∧ t3.dtype = DType.float32) ∧
     (∃ t4, demoSample.get? 4 = some t4 ∧ t4.dtype = DType.float32) ∧
     (∀ lab, demoSample.get? 5 = some lab → lab.dtype = DType.int64)) :=
  ⟨rfl, sample_dtypes demoDataset demoHide 0 demoSample rfl⟩

theorem adapter_introduces_no_failures_witness :
    ((DatasetForSAITS.init (Storage.array [] none) true "h5py" 7).rate = 7) ∧
    (([] : List Tensor).length ≤ 0 ∧
     pyIndex ([] : List Tensor) 0 = Except.error (Err.indexError 0) ∧
     ((DatasetForSAITS.init (Storage.array [] none) true "h5py" 7).getitem
       demoHide 0).1 = Except.error (Err.indexError 0)) ∧
    (fileLookup (effHandle [] none) "X" = none ∧
     ((DatasetForSAITS.init (Storage.file [] none) true "h5py" 7).getitem
       demoHide 0).1 = Except.error (Err.keyError "X")) :=
  ⟨(adapter_introduces_no_failures.1 (Storage.array [] none) true "h5py" 7).1,
   ⟨Nat.le_refl 0,
    adapter_introduces_no_failures.2.1 [] none true "h5py" 7 demoHide 0
      (Nat.le_refl 0)⟩,
   ⟨rfl,
    adapter_introduces_no_failures.2.2 [] none true "h5py" 7 demoHide 0 rfl⟩⟩

theorem original_corrupted_same_shape_witness :
    (demoDataset.getitem demoHide 0).1 = Except.ok demoSample ∧
    demoSample.get? 1 = some ⟨DType.float32, [2, 1], [some 3, none]⟩ ∧
    demoSample.get? 2 = some ⟨DType.float32, [2, 1], [none, none]⟩ ∧
    (⟨DType.float32, [2, 1], [some 3, none]⟩ : Tensor).shape =
      (⟨DType.float32, [2, 1], [none, none]⟩ : Tensor).shape :=
  ⟨rfl, rfl, rfl,
   original_corrupted_same_shape demoDataset demoHide 0 demoSample rfl
     ⟨DType.float32, [2, 1], [some 3, none]⟩
     ⟨DType.float32, [2, 1], [none, none]⟩ rfl rfl⟩

theorem first_element_index_tensor_witness :
    (demoDataset.getitem demoHide 0).1 = Except.ok demoSample ∧
    (demoSample.get? 0 = some (torchTensorScalar (Int.ofNat 0)) ∧
     (torchTensorScalar (Int.ofNat 0)).shape = [] ∧
     (torchTensorScalar (Int.ofNat 0)).dtype = DType.int64 ∧
     (torchTensorScalar (Int.ofNat 0)).data = [some (Int.ofNat 0)]) :=
  ⟨rfl, first_element_index_tensor demoDataset demoHide 0 demoSample rfl⟩

end SAITS
